import Mathlib

/-
Shallow embedding of the approval-workflow and timetable-scheduling core of
the cloudbackend FastAPI service (src/app/routers/{faculty,hod,admin,student,
institution}.py).

Database tables are embedded as Lean lists of structure values; the Supabase
query-builder calls used by the handlers (filtered select / conditional
update / upsert / insert / delete) become list filters, maps and appends.
String status columns stay strings, mirroring the source's string-status
state machine.  `datetime.utcnow()` timestamps are an abstract `Nat` passed
in by the caller; row ids generated by the database are likewise passed in.
The `marks` float column is embedded as `Int`: none of the modelled
operations compute on it, they only store and copy it.
-/

deriving instance DecidableEq for Except

namespace Cloudbackend

/-! ## Data model -/

/-- A row of `internal_marks` (columns used by the workflow handlers). -/
structure InternalMark where
  tenant_id : String
  subject_id : String
  student_id : String
  marks : Int
  max_marks : Int
  status : String
  submitted_by : Option String := none
  approved_by : Option String := none
  approved_at : Option Nat := none
  locked_by : Option String := none
  locked_at : Option Nat := none
deriving DecidableEq

/-- One element of `MarksSubmit.entries` (schemas/workflow.py `MarkEntry`). -/
structure MarkEntry where
  student_id : String
  marks : Int
  max_marks : Int
deriving DecidableEq

/-- A row of `od_requests` (columns used by the OD workflow handlers). -/
structure OdRequest where
  id : String
  tenant_id : String
  student_id : String
  subject_id : String
  od_type : String
  reason : String := ""
  status : String
  faculty_action_by : Option String := none
  faculty_action_at : Option Nat := none
  hod_action_by : Option String := none
  hod_action_at : Option Nat := none
  rejection_reason : Option String := none
deriving DecidableEq

/-- A row of `batch_students`: the faculty-advisor assignment relation used
by `GET /api/faculty/od/pending` to compute a faculty member's advisees. -/
structure BatchStudent where
  tenant_id : String
  batch_id : String := ""
  student_id : String
  faculty_advisor_id : Option String := none
deriving DecidableEq

/-- Request body of `POST /api/student/od/apply` (schemas/workflow.py
`ODApply`). -/
structure ODApply where
  subject_id : String
  date : Nat := 0
  end_date : Option Nat := none
  reason : String := ""
  od_type : String := "normal"
  document_url : Option String := none
deriving DecidableEq

/-! ## Marks workflow (faculty.py `submit_marks`, hod.py `approve_marks`,
admin.py `lock_marks`) -/

/-- One record of the `internal_marks` upsert issued by
`POST /api/faculty/marks/submit`: on a `(tenant_id, subject_id, student_id)`
conflict the existing row is updated with the submitted columns (marks,
max_marks, status := "submitted", submitted_by); otherwise a new row is
inserted.  There is no filter on the current status. -/
def upsertMark (tenant subject actor : String) (e : MarkEntry)
    (table : List InternalMark) : List InternalMark :=
  if table.any (fun m => m.tenant_id == tenant && m.subject_id == subject
      && m.student_id == e.student_id) then
    table.map (fun m =>
      if m.tenant_id == tenant && m.subject_id == subject
          && m.student_id == e.student_id then
        { m with marks := e.marks, max_marks := e.max_marks,
                 status := "submitted", submitted_by := some actor }
      else m)
  else
    table ++ [{ tenant_id := tenant, subject_id := subject,
                student_id := e.student_id, marks := e.marks,
                max_marks := e.max_marks, status := "submitted",
                submitted_by := some actor }]

/-- `POST /api/faculty/marks/submit` (faculty.py): upserts one record per
entry, `on_conflict="tenant_id,subject_id,student_id"`; returns the new
table and the reported count. -/
def submit_marks (tenant actor subject : String) (entries : List MarkEntry)
    (table : List InternalMark) : List InternalMark × Nat :=
  (entries.foldl (fun t e => upsertMark tenant subject actor e t) table,
   entries.length)

/-- The row filter of the conditional update in hod.py `approve_marks`:
`tenant_id = tenant ∧ subject_id = subject ∧ status = "submitted"`. -/
def marksMatch (tenant subject : String) (m : InternalMark) : Bool :=
  m.tenant_id == tenant && m.subject_id == subject && m.status == "submitted"

/-- `PATCH /api/hod/marks/{subject_id}/action` (hod.py): action "approve"
sets status "approved" with approver stamp, "reject" sets status "draft",
anything else raises 400; the update touches only rows passing `marksMatch`
and returns the updated rows (the table is the post-state, the second list
the rows the update affected, as Supabase returns them). -/
def approve_marks (action tenant subject actor : String) (now : Nat)
    (table : List InternalMark) :
    Except String (List InternalMark × List InternalMark) :=
  let updFor : Option (InternalMark → InternalMark) :=
    if action == "approve" then
      some (fun m =>
        { m with
          status := "approved",
          approved_by := some actor,
          approved_at := some now })
    else if action == "reject" then
      some (fun m => { m with status := "draft" })
    else none
  match updFor with
  | none => .error "Invalid action"
  | some upd =>
      .ok (table.map (fun m => if marksMatch tenant subject m then upd m else m),
           (table.filter (marksMatch tenant subject)).map upd)

/-- The row filter of the conditional update in admin.py `lock_marks`:
`tenant_id = tenant ∧ subject_id = subject ∧ status = "approved"`. -/
def lockMatch (tenant subject : String) (m : InternalMark) : Bool :=
  m.tenant_id == tenant && m.subject_id == subject && m.status == "approved"

/-- `POST /api/admin/marks/lock/{subject_id}` (admin.py): sets status
"locked" with locker stamp on every row passing `lockMatch`; returns the
post-state table and the affected rows. -/
def lock_marks (tenant subject actor : String) (now : Nat)
    (table : List InternalMark) : List InternalMark × List InternalMark :=
  let upd := fun m => { m with status := "locked", locked_by := some actor,
                               locked_at := some now }
  (table.map (fun m => if lockMatch tenant subject m then upd m else m),
   (table.filter (lockMatch tenant subject)).map upd)

/-! ## OD workflow (student.py `apply_od`, faculty.py `faculty_od_action`,
hod.py `hod_od_action`) -/

/-- student.py `apply_od`: `initial_status = "pending_hod" if body.od_type
in ["special", "medical"] else "pending_faculty"`. -/
def initial_status (od_type : String) : String :=
  if od_type == "special" || od_type == "medical" then "pending_hod"
  else "pending_faculty"

/-- `POST /api/student/od/apply` (student.py): inserts one `od_requests` row
with the status chosen by `initial_status`.  `resolvedSubject` is the
subject id after the handler's auto-fill lookup (which only affects
`subject_id`, never the status); `newId` is the database-generated row id. -/
def apply_od (tenant student newId : String) (body : ODApply)
    (resolvedSubject : String) (table : List OdRequest) : List OdRequest :=
  table ++ [{ id := newId, tenant_id := tenant, student_id := student,
              subject_id := resolvedSubject, od_type := body.od_type,
              reason := body.reason, status := initial_status body.od_type }]

/-- The row filter of the conditional update in faculty.py
`faculty_od_action`: `id = od_id ∧ tenant_id = tenant ∧
status = "pending_faculty"`.  Note the handler applies no other condition:
the advisor relation is not consulted. -/
def odFacMatch (od_id tenant : String) (r : OdRequest) : Bool :=
  r.id == od_id && r.tenant_id == tenant && r.status == "pending_faculty"

/-- `PATCH /api/faculty/od/{od_id}/action` (faculty.py): "approve" moves a
`pending_faculty` row to `pending_hod`, "reject" to `rejected` (storing the
reason); anything else raises 400.  Returns the post-state table and the
affected rows. -/
def faculty_od_action (od_id tenant actor action : String)
    (rejection_reason : Option String) (now : Nat) (table : List OdRequest) :
    Except String (List OdRequest × List OdRequest) :=
  let updFor : Option (OdRequest → OdRequest) :=
    if action == "approve" then
      some (fun r =>
        { r with
          status := "pending_hod",
          faculty_action_by := some actor,
          faculty_action_at := some now })
    else if action == "reject" then
      some (fun r =>
        { r with
          status := "rejected",
          faculty_action_by := some actor,
          faculty_action_at := some now,
          rejection_reason := rejection_reason })
    else none
  match updFor with
  | none => .error "Invalid action"
  | some upd =>
      .ok (table.map (fun r => if odFacMatch od_id tenant r then upd r else r),
           (table.filter (odFacMatch od_id tenant)).map upd)

/-- The row filter of the conditional update in hod.py `hod_od_action`:
`id = od_id ∧ tenant_id = tenant ∧ status = "pending_hod"`. -/
def odHodMatch (od_id tenant : String) (r : OdRequest) : Bool :=
  r.id == od_id && r.tenant_id == tenant && r.status == "pending_hod"

/-- `PATCH /api/hod/od/{od_id}/action` (hod.py): "approve" moves a
`pending_hod` row to `approved`, "reject" to `rejected`; anything else
raises 400. -/
def hod_od_action (od_id tenant actor action : String)
    (rejection_reason : Option String) (now : Nat) (table : List OdRequest) :
    Except String (List OdRequest × List OdRequest) :=
  let updFor : Option (OdRequest → OdRequest) :=
    if action == "approve" then
      some (fun r =>
        { r with
          status := "approved",
          hod_action_by := some actor,
          hod_action_at := some now })
    else if action == "reject" then
      some (fun r =>
        { r with
          status := "rejected",
          hod_action_by := some actor,
          hod_action_at := some now,
          rejection_reason := rejection_reason })
    else none
  match updFor with
  | none => .error "Invalid action"
  | some upd =>
      .ok (table.map (fun r => if odHodMatch od_id tenant r then upd r else r),
           (table.filter (odHodMatch od_id tenant)).map upd)

/-- The advisee relation read by `GET /api/faculty/od/pending` (faculty.py):
student `student` is an advisee of `faculty` when some `batch_students` row
of the tenant names `faculty` as `faculty_advisor_id` for that student. -/
def isAdvisee (tenant faculty student : String)
    (bs : List BatchStudent) : Prop :=
  ∃ b ∈ bs, b.tenant_id = tenant ∧ b.faculty_advisor_id = some faculty ∧
    b.student_id = student

instance (tenant faculty student : String) (bs : List BatchStudent) :
    Decidable (isAdvisee tenant faculty student bs) := by
  unfold isAdvisee
  infer_instance

/-- Number of rows an OD action reported as affected (length of the row set
Supabase returns from the conditional update; 0 on an HTTP-level error). -/
def odActionAffected (res : Except String (List OdRequest × List OdRequest)) :
    Nat :=
  match res with
  | .ok p => p.2.length
  | .error _ => 0

/-! ## Timetable scheduling engine (institution.py `generate_timetable`) -/

/-- A row of `batches` (columns used by `generate_timetable`). -/
structure Batch where
  id : String
  tenant_id : String
  program_id : String := ""
  semester : Option Nat := none
deriving DecidableEq

/-- A row of `subjects` (columns used by `generate_timetable`). -/
structure Subject where
  id : String
  tenant_id : String
  program_id : String := ""
  semester : Nat
deriving DecidableEq

/-- A row of `faculty_assignments` (columns selected by
`generate_timetable`: faculty_id, subject_id, hours_per_week). -/
structure FacultyAssignment where
  tenant_id : String
  faculty_id : String
  subject_id : String
  hours_per_week : Option Nat := none
deriving DecidableEq

/-- A row of `period_templates`.  `tenant_id` is nullable: rows with no
tenant are institution defaults reachable only through the fallback query. -/
structure PeriodTemplate where
  tenant_id : Option String := none
  period_number : Nat
  is_break : Bool := false
  start_time : String := ""
  end_time : String := ""
deriving DecidableEq

/-- A row of `classrooms` (columns used by `generate_timetable`). -/
structure Classroom where
  id : String
  tenant_id : String
  capacity : Nat
  is_available : Bool := true
deriving DecidableEq

/-- A row of `timetable_slots` (columns written by `generate_timetable`). -/
structure Slot where
  tenant_id : String
  batch_id : String
  subject_id : String
  faculty_id : String
  classroom_id : Option String := none
  day_of_week : Nat
  period_number : Nat
  start_time : String := ""
  end_time : String := ""
  slot_type : String := "lecture"
deriving DecidableEq

/-- The tables `generate_timetable` reads and writes. -/
structure DB where
  batches : List Batch := []
  subjects : List Subject := []
  assignments : List FacultyAssignment := []
  period_templates : List PeriodTemplate := []
  classrooms : List Classroom := []
  timetable_slots : List Slot := []
deriving DecidableEq

/-- Stable ascending insertion of `a` into a list sorted by `key`
(elements with equal keys keep their original relative order, matching the
store's stable `order` clause). -/
def insAsc (key : α → Nat) (a : α) : List α → List α
  | [] => [a]
  | b :: rest => if key b ≤ key a then b :: insAsc key a rest
                 else a :: b :: rest

/-- Stable sort ascending by `key` (models `.order(col)`). -/
def sortAsc (key : α → Nat) (l : List α) : List α := l.foldr (insAsc key) []

/-- Stable descending insertion of `a` into a list sorted by `key`. -/
def insDesc (key : α → Nat) (a : α) : List α → List α
  | [] => [a]
  | b :: rest => if key a ≤ key b then b :: insDesc key a rest
                 else a :: b :: rest

/-- Stable sort descending by `key` (models `.order(col, desc=True)`). -/
def sortDesc (key : α → Nat) (l : List α) : List α := l.foldr (insDesc key) []

/-- The faculty occupancy key of a slot: python's
`f-string faculty_id-day-period`, which is injective on the triple, so the
triple itself is used. -/
def facKey (s : Slot) : String × Nat × Nat :=
  (s.faculty_id, s.day_of_week, s.period_number)

/-- The batch occupancy key of a slot. -/
def batKey (s : Slot) : String × Nat × Nat :=
  (s.batch_id, s.day_of_week, s.period_number)

/-- The room occupancy key of a slot; `none` when the slot has no room
(python marks room occupancy only `if s.get("classroom_id")`). -/
def roomKey (s : Slot) : Option (String × Nat × Nat) :=
  s.classroom_id.map (fun r => (r, s.day_of_week, s.period_number))

/-- The per-run occupancy index: the three dictionaries
`faculty_occupied`, `room_occupied`, `batch_occupied` (membership only, so
a key list suffices). -/
structure Occ where
  fac : List (String × Nat × Nat) := []
  room : List (String × Nat × Nat) := []
  bat : List (String × Nat × Nat) := []
deriving DecidableEq

/-- One iteration of the loop over `existing.data` that seeds the occupancy
index: mark the faculty and batch keys, and the room key when the slot has
a room. -/
def occInsert (occ : Occ) (s : Slot) : Occ :=
  { fac := facKey s :: occ.fac,
    room := match roomKey s with
            | some k => k :: occ.room
            | none => occ.room,
    bat := batKey s :: occ.bat }

/-- The loop over `existing.data` that seeds the occupancy index from the
slots read at run start. -/
def buildOcc (slots : List Slot) : Occ :=
  slots.foldl occInsert {}

/-- `hrs_needed = asgn.get("hours_per_week", 4)`: a missing weekly-hour
target defaults to 4. -/
def hoursNeeded (a : FacultyAssignment) : Nat := a.hours_per_week.getD 4

/-- The candidate (day, period) pairs in scan order: days 1..6 (Mon-Sat)
outer, template periods inner. -/
def dayPeriodPairs (periods : List PeriodTemplate) :
    List (Nat × PeriodTemplate) :=
  [1, 2, 3, 4, 5, 6].flatMap (fun d => periods.map (fun p => (d, p)))

/-- One iteration of the greedy inner loop for one candidate (day, period):
state is (hours already allocated for this assignment, occupancy index,
slots created so far in this run).  Skips when the target is met, when the
faculty or the batch is occupied; otherwise places the slot, picking the
first free room in capacity order (none is allowed), and marks the
occupancy keys immediately. -/
def tryPlace (tenant batch_id : String) (a : FacultyAssignment)
    (rooms : List Classroom) (hrs : Nat)
    (st : Nat × Occ × List Slot) (dp : Nat × PeriodTemplate) :
    Nat × Occ × List Slot :=
  let allocated := st.1
  let occ := st.2.1
  let created := st.2.2
  if hrs ≤ allocated then st
  else
    let day := dp.1
    let pnum := dp.2.period_number
    let fid := a.faculty_id
    if (fid, day, pnum) ∈ occ.fac ∨ (batch_id, day, pnum) ∈ occ.bat then st
    else
      let room_id :=
        (rooms.find? (fun r => decide ((r.id, day, pnum) ∉ occ.room))).map
          (fun r => r.id)
      let slot : Slot :=
        { tenant_id := tenant, batch_id := batch_id,
          subject_id := a.subject_id, faculty_id := fid,
          classroom_id := room_id, day_of_week := day, period_number := pnum,
          start_time := dp.2.start_time, end_time := dp.2.end_time,
          slot_type := "lecture" }
      let occ1 : Occ :=
        { fac := (fid, day, pnum) :: occ.fac,
          bat := (batch_id, day, pnum) :: occ.bat,
          room := match room_id with
                  | some rid => (rid, day, pnum) :: occ.room
                  | none => occ.room }
      (allocated + 1, occ1, created ++ [slot])

/-- The greedy pass for one faculty assignment: scan all (day, period)
candidates in order until the hour target is met. -/
def placeAssignment (tenant batch_id : String)
    (periods : List PeriodTemplate) (rooms : List Classroom)
    (occ : Occ) (created : List Slot) (a : FacultyAssignment) :
    Occ × List Slot :=
  let res := (dayPeriodPairs periods).foldl
    (tryPlace tenant batch_id a rooms (hoursNeeded a)) (0, occ, created)
  (res.2.1, res.2.2)

/-- The full greedy allocation: assignments in retrieval order, occupancy
threaded through; returns the final occupancy index and the created slots. -/
def greedyAlloc (tenant batch_id : String)
    (assignments : List FacultyAssignment) (periods : List PeriodTemplate)
    (rooms : List Classroom) (occ0 : Occ) : Occ × List Slot :=
  assignments.foldl
    (fun st a => placeAssignment tenant batch_id periods rooms st.1 st.2 a)
    (occ0, [])

/-- The `force_regenerate` branch: delete every slot of this tenant+batch
before anything else is checked beyond the batch lookup. -/
def applyForceDelete (tenant batch_id : String) (force : Bool) (db : DB) :
    DB :=
  if force then
    let keep := db.timetable_slots.filter
      (fun s => !(s.tenant_id == tenant && s.batch_id == batch_id))
    { db with timetable_slots := keep }
  else db

/-- The subjects query: tenant and semester only — no program filter. -/
def subjectsFor (tenant : String) (sem : Nat) (db : DB) : List Subject :=
  db.subjects.filter (fun s => s.tenant_id == tenant && s.semester == sem)

/-- The faculty-assignments query: tenant and `subject_id ∈ subject_ids`. -/
def assignmentsFor (tenant : String) (subject_ids : List String) (db : DB) :
    List FacultyAssignment :=
  db.assignments.filter
    (fun a => a.tenant_id == tenant && subject_ids.contains a.subject_id)

/-- The period-template query with its fallback: tenant-scoped non-break
templates ordered by period number; when that is empty, all non-break
templates regardless of tenant. -/
def periodsFor (tenant : String) (db : DB) : List PeriodTemplate :=
  let tenantTemplates := sortAsc (fun p => p.period_number)
    (db.period_templates.filter
      (fun p => p.tenant_id == some tenant && p.is_break == false))
  if tenantTemplates.isEmpty then
    sortAsc (fun p => p.period_number)
      (db.period_templates.filter (fun p => p.is_break == false))
  else tenantTemplates

/-- The classrooms query: tenant-scoped available rooms, capacity
descending. -/
def roomsFor (tenant : String) (db : DB) : List Classroom :=
  sortDesc (fun r => r.capacity)
    (db.classrooms.filter (fun r => r.tenant_id == tenant && r.is_available))

/-- The slots read at run start for conflict checking: every slot of the
tenant (after any force-regenerate deletion). -/
def existingSlots (tenant : String) (db : DB) : List Slot :=
  db.timetable_slots.filter (fun s => s.tenant_id == tenant)

/-- The response payload of a successful generation run. -/
structure GenResult where
  allocated_slots : Nat
  total_assignments : Nat
  slots : List Slot
deriving DecidableEq

/-- `POST /api/institution/timetable/generate` (institution.py): batch
lookup (404 before any mutation), force-regenerate deletion, subjects /
assignments / period-template / classroom queries, occupancy seeding, and
the greedy pass.  Returns the post-state database and either an HTTP error
detail or the result payload. -/
def generate_timetable (tenant batch_id : String) (force_regenerate : Bool)
    (db : DB) : DB × Except String GenResult :=
  match db.batches.find?
      (fun b => b.id == batch_id && b.tenant_id == tenant) with
  | none => (db, .error "Batch not found")
  | some batch =>
    let semester := batch.semester.getD 1
    let db1 := applyForceDelete tenant batch_id force_regenerate db
    let subjects := subjectsFor tenant semester db1
    let subject_ids := subjects.map (fun s => s.id)
    if subject_ids.isEmpty then
      (db1, .error "No subjects found for this batch\x27s semester")
    else
      let assignments := assignmentsFor tenant subject_ids db1
      let periods := periodsFor tenant db1
      if periods.isEmpty then (db1, .error "No period templates set up")
      else
        let rooms := roomsFor tenant db1
        let existing := existingSlots tenant db1
        let created :=
          (greedyAlloc tenant batch_id assignments periods rooms
            (buildOcc existing)).2
        ({ db1 with timetable_slots := db1.timetable_slots ++ created },
         .ok { allocated_slots := created.length,
               total_assignments := assignments.length,
               slots := created })

/-- Two slots collide when they share the faculty key, the batch key, or a
non-null room key. -/
def slotConflict (s t : Slot) : Prop :=
  facKey s = facKey t ∨ batKey s = batKey t ∨
    (roomKey s ≠ none ∧ roomKey s = roomKey t)

instance (s t : Slot) : Decidable (slotConflict s t) := by
  unfold slotConflict; infer_instance

/-- A slot list is conflict-free when no two of its slots collide. -/
def conflictFree (slots : List Slot) : Prop :=
  slots.Pairwise (fun s t => ¬ slotConflict s t)

instance (slots : List Slot) : Decidable (conflictFree slots) := by
  unfold conflictFree
  infer_instance

/-- The occupancy index covers a slot when all its keys are marked. -/
def occCovers (occ : Occ) (s : Slot) : Prop :=
  facKey s ∈ occ.fac ∧ batKey s ∈ occ.bat ∧
    ∀ k, roomKey s = some k → k ∈ occ.room

/-- Componentwise containment of occupancy indices. -/
def occSub (o1 o2 : Occ) : Prop :=
  o1.fac ⊆ o2.fac ∧ o1.room ⊆ o2.room ∧ o1.bat ⊆ o2.bat

/-- The run invariant of the greedy pass: relative to the fixed pre-existing
slots, the occupancy index covers every slot placed so far and the placed
slots are mutually conflict-free. -/
def runInv (fixed : List Slot) (occ : Occ) (created : List Slot) : Prop :=
  (∀ s ∈ fixed ++ created, occCovers occ s) ∧ conflictFree (fixed ++ created)

/-! ## Concrete fixtures -/

/-- A database where the targeted batch and one of its slots exist but no
subject matches the batch's semester. -/
def dbNoSubjects : DB :=
  { batches := [{ id := "b1", tenant_id := "t", semester := some 1 }],
    timetable_slots :=
      [{ tenant_id := "t", batch_id := "b1", subject_id := "s1",
         faculty_id := "f1", day_of_week := 1, period_number := 1 }] }

/-- Fixture for the C9 scenario: one assignment needing 4 hours/week, six
non-break periods on each of six days, no pre-existing bookings. -/
def dbScenario : DB :=
  { batches := [{ id := "b1", tenant_id := "t", semester := some 1 }],
    subjects := [{ id := "s1", tenant_id := "t", semester := 1 }],
    assignments :=
      [{ tenant_id := "t", faculty_id := "f1", subject_id := "s1",
         hours_per_week := some 4 }],
    period_templates := [1, 2, 3, 4, 5, 6].map
      (fun n => { tenant_id := some "t", period_number := n }),
    classrooms := [{ id := "r1", tenant_id := "t", capacity := 30 }],
    timetable_slots := [] }

/-- Fixture for C10: the batch belongs to program "P1" while the only
subject of the matching semester belongs to program "P2"; its assignment
has no `hours_per_week`. -/
def dbCrossProgram : DB :=
  { batches :=
      [{ id := "b1", tenant_id := "t", program_id := "P1",
         semester := some 3 }],
    subjects :=
      [{ id := "s2", tenant_id := "t", program_id := "P2",
         semester := 3 }],
    assignments :=
      [{ tenant_id := "t", faculty_id := "f1", subject_id := "s2" }],
    period_templates := [1, 2, 3, 4, 5, 6].map
      (fun n => { tenant_id := some "t", period_number := n }),
    classrooms := [],
    timetable_slots := [] }

/-! ## General helper lemmas -/

/-- A conditional update whose filter rejects every row of the table
leaves the table unchanged and affects no row. -/
theorem condUpdate_nil {α : Type} (p : α → Bool) (f : α → α) (l : List α)
    (h : ∀ a ∈ l, p a = false) :
    l.map (fun a => if p a then f a else a) = l ∧ l.filter p = [] := by
  constructor
  · calc l.map (fun a => if p a then f a else a)
        = l.map id := List.map_congr_left (fun a ha => by simp [h a ha])
      _ = l := List.map_id l
  · exact List.filter_eq_nil_iff.mpr (fun a ha => by simp [h a ha])

/-- Membership in the output of a conditional update. -/
theorem condUpdate_mem {α : Type} (p : α → Bool) (f : α → α) (l : List α)
    (x : α) (hx : x ∈ l.map (fun a => if p a then f a else a)) :
    ∃ a ∈ l, x = (if p a then f a else a) := by
  rcases List.mem_map.mp hx with ⟨a, ha, hax⟩
  exact ⟨a, ha, hax.symm⟩

/-! ## Occupancy-index lemmas for the greedy scheduler -/

theorem occSub_refl (o : Occ) : occSub o o :=
  ⟨fun _ h => h, fun _ h => h, fun _ h => h⟩

theorem occSub_trans {a b c : Occ} (h1 : occSub a b) (h2 : occSub b c) :
    occSub a c :=
  ⟨fun _ h => h2.1 (h1.1 h), fun _ h => h2.2.1 (h1.2.1 h),
   fun _ h => h2.2.2 (h1.2.2 h)⟩

theorem occCovers_mono {o1 o2 : Occ} (h : occSub o1 o2) (s : Slot)
    (hc : occCovers o1 s) : occCovers o2 s :=
  ⟨h.1 hc.1, h.2.2 hc.2.1, fun k hk => h.2.1 (hc.2.2 k hk)⟩

theorem occSub_occInsert (occ : Occ) (s : Slot) :
    occSub occ (occInsert occ s) := by
  refine ⟨List.subset_cons_self _ _, ?_, List.subset_cons_self _ _⟩
  unfold occInsert
  cases h : roomKey s with
  | some k =>
      simp only []
      exact List.subset_cons_self _ _
  | none =>
      simp only []
      exact fun _ hx => hx

theorem occInsert_covers (occ : Occ) (s : Slot) :
    occCovers (occInsert occ s) s := by
  refine ⟨List.mem_cons_self _ _, List.mem_cons_self _ _, ?_⟩
  intro k hk
  unfold occInsert
  simp only [hk]
  exact List.mem_cons_self _ _

theorem foldl_occInsert_sub (slots : List Slot) (occ : Occ) :
    occSub occ (slots.foldl occInsert occ) := by
  induction slots generalizing occ with
  | nil => exact occSub_refl occ
  | cons a rest ih =>
      exact occSub_trans (occSub_occInsert occ a) (ih (occInsert occ a))

theorem buildOcc_covers (slots : List Slot) :
    ∀ s ∈ slots, occCovers (buildOcc slots) s := by
  have hgen : ∀ (l : List Slot) (occ : Occ) (s : Slot), s ∈ l →
      occCovers (l.foldl occInsert occ) s := by
    intro l
    induction l with
    | nil => intro occ s hs; cases hs
    | cons a rest ih =>
        intro occ s hs
        rcases List.mem_cons.mp hs with rfl | hs
        · exact occCovers_mono (foldl_occInsert_sub rest (occInsert occ s)) s
            (occInsert_covers occ s)
        · exact ih (occInsert occ a) s hs
  exact fun s hs => hgen slots {} s hs

/-- Invariant preservation for one successful placement with an arbitrary
room outcome. -/
theorem place_step_inv (tenant batch_id : String) (a : FacultyAssignment)
    (dp : Nat × PeriodTemplate) (fixed : List Slot) (occ : Occ)
    (created : List Slot) (room_id : Option String)
    (hfac : (a.faculty_id, dp.1, dp.2.period_number) ∉ occ.fac)
    (hbat : (batch_id, dp.1, dp.2.period_number) ∉ occ.bat)
    (hroom : ∀ rid, room_id = some rid →
        (rid, dp.1, dp.2.period_number) ∉ occ.room)
    (h : runInv fixed occ created) :
    runInv fixed
      { fac := (a.faculty_id, dp.1, dp.2.period_number) :: occ.fac,
        bat := (batch_id, dp.1, dp.2.period_number) :: occ.bat,
        room := match room_id with
                | some rid => (rid, dp.1, dp.2.period_number) :: occ.room
                | none => occ.room }
      (created ++
        [{ tenant_id := tenant, batch_id := batch_id,
           subject_id := a.subject_id, faculty_id := a.faculty_id,
           classroom_id := room_id, day_of_week := dp.1,
           period_number := dp.2.period_number,
           start_time := dp.2.start_time, end_time := dp.2.end_time,
           slot_type := "lecture" }]) := by
  obtain ⟨hcov, hpair⟩ := h
  constructor
  · intro s hs
    rw [← List.append_assoc] at hs
    rcases List.mem_append.mp hs with hs | hs
    · refine occCovers_mono ?_ s (hcov s hs)
      refine ⟨List.subset_cons_self _ _, ?_, List.subset_cons_self _ _⟩
      cases room_id with
      | some rid => exact List.subset_cons_self _ _
      | none => exact fun x hx => hx
    · rcases List.mem_singleton.mp hs with rfl
      refine ⟨List.mem_cons_self _ _, List.mem_cons_self _ _, ?_⟩
      intro k hk
      cases room_id with
      | none => simp [roomKey] at hk
      | some rid =>
          simp only [roomKey] at hk
          simp at hk
          subst hk
          exact List.mem_cons_self _ _
  · unfold conflictFree at hpair ⊢
    rw [← List.append_assoc]
    refine List.pairwise_append.mpr ⟨hpair, List.pairwise_singleton _ _, ?_⟩
    intro x hx y hy
    rcases List.mem_singleton.mp hy with rfl
    intro hc
    rcases hc with hfk | hbk | ⟨hne, heq⟩
    · have hm := (hcov x hx).1
      rw [hfk] at hm
      exact hfac hm
    · have hm := (hcov x hx).2.1
      rw [hbk] at hm
      exact hbat hm
    · cases hrid : room_id with
      | none =>
          apply hne
          rw [heq]
          simp [roomKey, hrid]
      | some rid =>
          have hk : roomKey
              { tenant_id := tenant, batch_id := batch_id,
                subject_id := a.subject_id, faculty_id := a.faculty_id,
                classroom_id := room_id, day_of_week := dp.1,
                period_number := dp.2.period_number,
                start_time := dp.2.start_time, end_time := dp.2.end_time,
                slot_type := "lecture" } =
              some (rid, dp.1, dp.2.period_number) := by
            simp [roomKey, hrid]
          have hm := (hcov x hx).2.2 (rid, dp.1, dp.2.period_number)
            (heq.trans hk)
          exact hroom rid hrid hm

theorem tryPlace_inv (tenant batch_id : String) (a : FacultyAssignment)
    (rooms : List Classroom) (hrs : Nat) (fixed : List Slot)
    (st : Nat × Occ × List Slot) (dp : Nat × PeriodTemplate)
    (h : runInv fixed st.2.1 st.2.2) :
    runInv fixed (tryPlace tenant batch_id a rooms hrs st dp).2.1
      (tryPlace tenant batch_id a rooms hrs st dp).2.2 := by
  obtain ⟨alloc, occ, created⟩ := st
  simp only [tryPlace]
  split
  · exact h
  · split
    · exact h
    · rename_i hle hocc
      rw [not_or] at hocc
      obtain ⟨hfac, hbat⟩ := hocc
      cases hfr : rooms.find?
          (fun r => decide ((r.id, dp.1, dp.2.period_number) ∉ occ.room)) with
      | none =>
          simp only [hfr, Option.map_none]
          exact place_step_inv tenant batch_id a dp fixed occ created
            none hfac hbat (fun rid hrid => by cases hrid) h
      | some r =>
          have hp := List.find?_some hfr
          have hfree : (r.id, dp.1, dp.2.period_number) ∉ occ.room :=
            of_decide_eq_true (by exact hp)
          simp only [hfr, Option.map_some]
          exact place_step_inv tenant batch_id a dp fixed occ created
            (some r.id) hfac hbat
            (fun rid hrid => by
              rw [Option.some.injEq] at hrid
              rw [← hrid]
              exact hfree) h

theorem foldl_tryPlace_inv (tenant batch_id : String)
    (a : FacultyAssignment) (rooms : List Classroom) (hrs : Nat)
    (fixed : List Slot) (dps : List (Nat × PeriodTemplate))
    (st : Nat × Occ × List Slot) (h : runInv fixed st.2.1 st.2.2) :
    runInv fixed
      (dps.foldl (tryPlace tenant batch_id a rooms hrs) st).2.1
      (dps.foldl (tryPlace tenant batch_id a rooms hrs) st).2.2 := by
  induction dps generalizing st with
  | nil => exact h
  | cons dp rest ih =>
      exact ih (tryPlace tenant batch_id a rooms hrs st dp)
        (tryPlace_inv tenant batch_id a rooms hrs fixed st dp h)

theorem placeAssignment_inv (tenant batch_id : String)
    (periods : List PeriodTemplate) (rooms : List Classroom)
    (fixed : List Slot) (occ : Occ) (created : List Slot)
    (a : FacultyAssignment) (h : runInv fixed occ created) :
    runInv fixed
      (placeAssignment tenant batch_id periods rooms occ created a).1
      (placeAssignment tenant batch_id periods rooms occ created a).2 := by
  unfold placeAssignment
  exact foldl_tryPlace_inv tenant batch_id a rooms (hoursNeeded a) fixed
    (dayPeriodPairs periods) (0, occ, created) h

theorem greedyAlloc_inv (tenant batch_id : String)
    (assignments : List FacultyAssignment) (periods : List PeriodTemplate)
    (rooms : List Classroom) (occ0 : Occ) (fixed : List Slot)
    (h : runInv fixed occ0 []) :
    runInv fixed
      (greedyAlloc tenant batch_id assignments periods rooms occ0).1
      (greedyAlloc tenant batch_id assignments periods rooms occ0).2 := by
  unfold greedyAlloc
  have hgen : ∀ (asgns : List FacultyAssignment) (st : Occ × List Slot),
      runInv fixed st.1 st.2 →
      runInv fixed
        (asgns.foldl (fun st a =>
          placeAssignment tenant batch_id periods rooms st.1 st.2 a) st).1
        (asgns.foldl (fun st a =>
          placeAssignment tenant batch_id periods rooms st.1 st.2 a) st).2 := by
    intro asgns
    induction asgns with
    | nil => exact fun st hst => hst
    | cons a rest ih =>
        intro st hst
        exact ih (placeAssignment tenant batch_id periods rooms st.1 st.2 a)
          (placeAssignment_inv tenant batch_id periods rooms fixed st.1
            st.2 a hst)
  exact hgen assignments (occ0, []) h

/-! ## Claims -/

/-- C5: for every OD request created by a student, if od_type is "special"
or "medical" the created row's status is `pending_hod`; for every other
od_type the created status is `pending_faculty`. -/
theorem c5_initial_status_policy (tenant student newId resolvedSubject : String)
    (body : ODApply) (table : List OdRequest) :
    ((apply_od tenant student newId body resolvedSubject table).getLast?).map
        (fun r => r.status) =
      some (if body.od_type = "special" ∨ body.od_type = "medical"
            then "pending_hod" else "pending_faculty") := by
  by_cases h1 : body.od_type = "special" <;>
    by_cases h2 : body.od_type = "medical" <;>
      simp [apply_od, initial_status, h1, h2]

/-- C6: an OD request whose every row with the targeted id is in a terminal
state (`approved` or `rejected`) is immune to further faculty or HOD
actions: the conditional update matches zero rows, the table is unchanged,
and the call returns success with an empty affected set. -/
theorem c6_terminal_state_noop (od_id tenant actor action : String)
    (reason : Option String) (now : Nat) (table : List OdRequest)
    (hterm : ∀ r ∈ table, r.id = od_id →
      r.status = "approved" ∨ r.status = "rejected")
    (hact : action = "approve" ∨ action = "reject") :
    faculty_od_action od_id tenant actor action reason now table =
        .ok (table, []) ∧
    hod_od_action od_id tenant actor action reason now table =
        .ok (table, []) := by
  have hfac : ∀ r ∈ table, odFacMatch od_id tenant r = false := by
    intro r hr
    simp only [odFacMatch, Bool.and_eq_false_iff, beq_eq_false_iff_ne, ne_eq]
    by_cases hid : r.id = od_id
    · rcases hterm r hr hid with hs | hs <;> simp [hs]
    · simp [hid]
  have hhod : ∀ r ∈ table, odHodMatch od_id tenant r = false := by
    intro r hr
    simp only [odHodMatch, Bool.and_eq_false_iff, beq_eq_false_iff_ne, ne_eq]
    by_cases hid : r.id = od_id
    · rcases hterm r hr hid with hs | hs <;> simp [hs]
    · simp [hid]
  rcases hact with rfl | rfl <;>
    constructor <;>
      simp [faculty_od_action, hod_od_action,
        (condUpdate_nil _ _ _ hfac).1, (condUpdate_nil _ _ _ hfac).2,
        (condUpdate_nil _ _ _ hhod).1, (condUpdate_nil _ _ _ hhod).2] <;>
      first
        | exact hfac
        | exact hhod

/-- C6 witness: a concrete approved request is untouched by both actions. -/
theorem c6_terminal_state_noop_witness :
    (∀ r ∈ [({ id := "od1", tenant_id := "t", student_id := "s",
               subject_id := "sub", od_type := "normal",
               status := "approved" } : OdRequest)], r.id = "od1" →
        r.status = "approved" ∨ r.status = "rejected") ∧
    faculty_od_action "od1" "t" "f" "approve" none 7
        [{ id := "od1", tenant_id := "t", student_id := "s",
           subject_id := "sub", od_type := "normal",
           status := "approved" }] =
      .ok ([{ id := "od1", tenant_id := "t", student_id := "s",
              subject_id := "sub", od_type := "normal",
              status := "approved" }], []) :=
  ⟨by decide,
   (c6_terminal_state_noop "od1" "t" "f" "approve" none 7
      [{ id := "od1", tenant_id := "t", student_id := "s",
         subject_id := "sub", od_type := "normal", status := "approved" }]
      (by decide) (Or.inl rfl)).1⟩

/-- Unfolding of the `approve_marks` row filter. -/
theorem marksMatch_iff (tenant subject : String) (m : InternalMark) :
    marksMatch tenant subject m = true ↔
      m.tenant_id = tenant ∧ m.subject_id = subject ∧
        m.status = "submitted" := by
  simp [marksMatch, and_assoc]

/-- Unfolding of the `lock_marks` row filter. -/
theorem lockMatch_iff (tenant subject : String) (m : InternalMark) :
    lockMatch tenant subject m = true ↔
      m.tenant_id = tenant ∧ m.subject_id = subject ∧
        m.status = "approved" := by
  simp [lockMatch, and_assoc]

/-- C7: the bulk approve transitions every `submitted` row of the (tenant,
subject) scope to `approved` with the approver id and one common timestamp,
leaves every other row unchanged without error, and a second approve
immediately after affects zero rows. -/
theorem c7_bulk_approve (tenant subject actor : String) (now : Nat)
    (table t' aff : List InternalMark)
    (h : approve_marks "approve" tenant subject actor now table =
      .ok (t', aff)) :
    (∀ (i : Nat) (m : InternalMark), table[i]? = some m →
        m.tenant_id = tenant → m.subject_id = subject →
        m.status = "submitted" →
        t'[i]? = some { m with status := "approved",
                               approved_by := some actor,
                               approved_at := some now }) ∧
    (∀ (i : Nat) (m : InternalMark), table[i]? = some m →
        ¬ (m.tenant_id = tenant ∧ m.subject_id = subject ∧
            m.status = "submitted") →
        t'[i]? = some m) ∧
    (∀ a ∈ aff, a.status = "approved" ∧ a.approved_by = some actor ∧
        a.approved_at = some now) ∧
    approve_marks "approve" tenant subject actor now t' = .ok (t', []) := by
  simp only [approve_marks, beq_self_eq_true, if_true, Except.ok.injEq,
    Prod.mk.injEq] at h
  obtain ⟨ht', haff⟩ := h
  refine ⟨?_, ?_, ?_, ?_⟩
  · intro i m him h1 h2 h3
    have hmm : marksMatch tenant subject m = true :=
      (marksMatch_iff tenant subject m).mpr ⟨h1, h2, h3⟩
    rw [← ht', List.getElem?_map, him]
    simp [hmm]
  · intro i m him hneg
    have hmm : marksMatch tenant subject m = false := by
      rw [Bool.eq_false_iff]
      intro hc
      exact hneg ((marksMatch_iff tenant subject m).mp hc)
    rw [← ht', List.getElem?_map, him]
    simp [hmm]
  · intro a ha
    rw [← haff] at ha
    rcases List.mem_map.mp ha with ⟨b, _, rfl⟩
    exact ⟨rfl, rfl, rfl⟩
  · have hall : ∀ x ∈ t', marksMatch tenant subject x = false := by
      intro x hx
      rw [← ht'] at hx
      rcases condUpdate_mem _ _ _ x hx with ⟨m, _, hxm⟩
      by_cases hmm : marksMatch tenant subject m = true
      · rw [if_pos hmm] at hxm
        subst hxm
        simp [marksMatch]
      · rw [Bool.not_eq_true] at hmm
        rw [if_neg (by simp [hmm])] at hxm
        subst hxm
        exact hmm
    have hmap := (condUpdate_nil (marksMatch tenant subject)
      (fun m => { m with status := "approved", approved_by := some actor,
                         approved_at := some now }) t' hall).1
    have hfil : t'.filter (marksMatch tenant subject) = [] :=
      List.filter_eq_nil_iff.mpr (fun a ha => by simp [hall a ha])
    simp only [approve_marks, beq_self_eq_true, if_true, hfil, hmap,
      List.map_nil]

/-- C7 witness: two submitted rows for one subject are both approved with a
common stamp, and a re-approve is a no-op. -/
theorem c7_bulk_approve_witness :
    (approve_marks "approve" "t" "sub" "hod1" 9
        [{ tenant_id := "t", subject_id := "sub", student_id := "A",
           marks := 10, max_marks := 100, status := "submitted" },
         { tenant_id := "t", subject_id := "sub", student_id := "B",
           marks := 20, max_marks := 100, status := "submitted" }] =
      .ok ([{ tenant_id := "t", subject_id := "sub", student_id := "A",
              marks := 10, max_marks := 100, status := "approved",
              approved_by := some "hod1", approved_at := some 9 },
            { tenant_id := "t", subject_id := "sub", student_id := "B",
              marks := 20, max_marks := 100, status := "approved",
              approved_by := some "hod1", approved_at := some 9 }],
           [{ tenant_id := "t", subject_id := "sub", student_id := "A",
              marks := 10, max_marks := 100, status := "approved",
              approved_by := some "hod1", approved_at := some 9 },
            { tenant_id := "t", subject_id := "sub", student_id := "B",
              marks := 20, max_marks := 100, status := "approved",
              approved_by := some "hod1", approved_at := some 9 }])) ∧
    approve_marks "approve" "t" "sub" "hod1" 9
        [{ tenant_id := "t", subject_id := "sub", student_id := "A",
           marks := 10, max_marks := 100, status := "approved",
           approved_by := some "hod1", approved_at := some 9 },
         { tenant_id := "t", subject_id := "sub", student_id := "B",
           marks := 20, max_marks := 100, status := "approved",
           approved_by := some "hod1", approved_at := some 9 }] =
      .ok ([{ tenant_id := "t", subject_id := "sub", student_id := "A",
              marks := 10, max_marks := 100, status := "approved",
              approved_by := some "hod1", approved_at := some 9 },
            { tenant_id := "t", subject_id := "sub", student_id := "B",
              marks := 20, max_marks := 100, status := "approved",
              approved_by := some "hod1", approved_at := some 9 }], []) :=
  ⟨by decide,
   (c7_bulk_approve "t" "sub" "hod1" 9
      [{ tenant_id := "t", subject_id := "sub", student_id := "A",
         marks := 10, max_marks := 100, status := "submitted" },
       { tenant_id := "t", subject_id := "sub", student_id := "B",
         marks := 20, max_marks := 100, status := "submitted" }]
      [{ tenant_id := "t", subject_id := "sub", student_id := "A",
         marks := 10, max_marks := 100, status := "approved",
         approved_by := some "hod1", approved_at := some 9 },
       { tenant_id := "t", subject_id := "sub", student_id := "B",
         marks := 20, max_marks := 100, status := "approved",
         approved_by := some "hod1", approved_at := some 9 }]
      [{ tenant_id := "t", subject_id := "sub", student_id := "A",
         marks := 10, max_marks := 100, status := "approved",
         approved_by := some "hod1", approved_at := some 9 },
       { tenant_id := "t", subject_id := "sub", student_id := "B",
         marks := 20, max_marks := 100, status := "approved",
         approved_by := some "hod1", approved_at := some 9 }]
      (by decide)).2.2.2⟩

/-- C8: the lock transitions exactly the `approved` rows of the (tenant,
subject) scope to `locked`, touches no row in any other status, stamps the
locker on every affected row, and a second lock affects zero rows. -/
theorem c8_lock_exact_idempotent (tenant subject actor : String) (now : Nat)
    (table : List InternalMark) :
    (∀ (i : Nat) (m : InternalMark), table[i]? = some m →
        m.tenant_id = tenant → m.subject_id = subject →
        m.status = "approved" →
        (lock_marks tenant subject actor now table).1[i]? =
          some { m with status := "locked", locked_by := some actor,
                        locked_at := some now }) ∧
    (∀ (i : Nat) (m : InternalMark), table[i]? = some m →
        ¬ (m.tenant_id = tenant ∧ m.subject_id = subject ∧
            m.status = "approved") →
        (lock_marks tenant subject actor now table).1[i]? = some m) ∧
    (∀ a ∈ (lock_marks tenant subject actor now table).2,
        a.status = "locked" ∧ a.locked_by = some actor ∧
          a.locked_at = some now) ∧
    (lock_marks tenant subject actor now
        (lock_marks tenant subject actor now table).1).2 = [] := by
  refine ⟨?_, ?_, ?_, ?_⟩
  · intro i m him h1 h2 h3
    have hmm : lockMatch tenant subject m = true :=
      (lockMatch_iff tenant subject m).mpr ⟨h1, h2, h3⟩
    simp only [lock_marks, List.getElem?_map, him]
    simp [hmm]
  · intro i m him hneg
    have hmm : lockMatch tenant subject m = false := by
      rw [Bool.eq_false_iff]
      intro hc
      exact hneg ((lockMatch_iff tenant subject m).mp hc)
    simp only [lock_marks, List.getElem?_map, him]
    simp [hmm]
  · intro a ha
    simp only [lock_marks] at ha
    rcases List.mem_map.mp ha with ⟨b, _, rfl⟩
    exact ⟨rfl, rfl, rfl⟩
  · have hall : ∀ x ∈ (lock_marks tenant subject actor now table).1,
        lockMatch tenant subject x = false := by
      intro x hx
      simp only [lock_marks] at hx
      rcases condUpdate_mem _ _ _ x hx with ⟨m, _, hxm⟩
      by_cases hmm : lockMatch tenant subject m = true
      · rw [if_pos hmm] at hxm
        subst hxm
        simp [lockMatch]
      · rw [Bool.not_eq_true] at hmm
        rw [if_neg (by simp [hmm])] at hxm
        subst hxm
        exact hmm
    have hfil : (lock_marks tenant subject actor now table).1.filter
        (lockMatch tenant subject) = [] :=
      List.filter_eq_nil_iff.mpr (fun a ha => by simp [hall a ha])
    show ((lock_marks tenant subject actor now table).1.filter
        (lockMatch tenant subject)).map _ = []
    rw [hfil]
    rfl

/-- C8 witness: one approved and one submitted row — lock touches only the
approved one, and a second lock affects zero rows. -/
theorem c8_lock_exact_idempotent_witness :
    ([({ tenant_id := "t", subject_id := "sub", student_id := "A",
         marks := 10, max_marks := 100, status := "approved" } :
        InternalMark),
      { tenant_id := "t", subject_id := "sub", student_id := "B",
        marks := 20, max_marks := 100, status := "submitted" }][1]? =
      some { tenant_id := "t", subject_id := "sub", student_id := "B",
             marks := 20, max_marks := 100, status := "submitted" }) ∧
    ¬ (("t" : String) = "t" ∧ ("sub" : String) = "sub" ∧
        ("submitted" : String) = "approved") ∧
    (lock_marks "t" "sub" "adm" 3
        [{ tenant_id := "t", subject_id := "sub", student_id := "A",
           marks := 10, max_marks := 100, status := "approved" },
         { tenant_id := "t", subject_id := "sub", student_id := "B",
           marks := 20, max_marks := 100, status := "submitted" }]).1[1]? =
      some { tenant_id := "t", subject_id := "sub", student_id := "B",
             marks := 20, max_marks := 100, status := "submitted" } :=
  ⟨by decide, by decide,
   (c8_lock_exact_idempotent "t" "sub" "adm" 3
      [{ tenant_id := "t", subject_id := "sub", student_id := "A",
         marks := 10, max_marks := 100, status := "approved" },
       { tenant_id := "t", subject_id := "sub", student_id := "B",
         marks := 20, max_marks := 100, status := "submitted" }]).2.1 1
      { tenant_id := "t", subject_id := "sub", student_id := "B",
        marks := 20, max_marks := 100, status := "submitted" }
      (by decide) (by decide)⟩

/-- C1 counterexample: the acting faculty "f" is not the advisor of
student "s" (the only batch_students row names "g"), yet both the approve
and the reject `faculty_od_action` by "f" on the pending request succeed
and affect one row — the handler never consults the advisor relation. -/
theorem c1_counterexample :
    ¬ isAdvisee "t" "f" "s"
        [{ tenant_id := "t", batch_id := "b1", student_id := "s",
           faculty_advisor_id := some "g" }] ∧
    odActionAffected (faculty_od_action "od1" "t" "f" "approve" none 0
        [{ id := "od1", tenant_id := "t", student_id := "s",
           subject_id := "sub", od_type := "normal",
           status := "pending_faculty" }]) = 1 ∧
    odActionAffected (faculty_od_action "od1" "t" "f" "reject"
        (some "busy") 0
        [{ id := "od1", tenant_id := "t", student_id := "s",
           subject_id := "sub", od_type := "normal",
           status := "pending_faculty" }]) = 1 := by
  refine ⟨?_, by decide, by decide⟩
  intro h
  rcases h with ⟨b, hb, _, h2, _⟩
  simp only [List.mem_singleton] at hb
  subst hb
  simp at h2

/-- C1 amended: `faculty_od_action` with either valid action (approve or
reject) succeeds for any faculty-role caller of the tenant whenever the
targeted row is in `pending_faculty` — the advisor relation is never
checked, so the action affects the row even when the student is not an
advisee of the actor. -/
theorem c1_no_advisee_check (od_id tenant actor action : String)
    (reason : Option String) (now : Nat) (table : List OdRequest)
    (bs : List BatchStudent) (r : OdRequest)
    (hact : action = "approve" ∨ action = "reject")
    (hr : r ∈ table) (hid : r.id = od_id) (ht : r.tenant_id = tenant)
    (hs : r.status = "pending_faculty")
    (_hadv : ¬ isAdvisee tenant actor r.student_id bs) :
    0 < odActionAffected
      (faculty_od_action od_id tenant actor action reason now table) := by
  have hmem : r ∈ table.filter (odFacMatch od_id tenant) :=
    List.mem_filter.mpr ⟨hr, by simp [odFacMatch, hid, ht, hs]⟩
  have hpos : 0 < (table.filter (odFacMatch od_id tenant)).length :=
    List.length_pos.mpr (List.ne_nil_of_mem hmem)
  rcases hact with rfl | rfl <;>
    simpa [faculty_od_action, odActionAffected] using hpos

/-- C1 witness for the amended claim: concrete non-advisor approve and
reject actions both succeed. -/
theorem c1_no_advisee_check_witness :
    (({ id := "od1", tenant_id := "t", student_id := "s",
        subject_id := "sub", od_type := "normal",
        status := "pending_faculty" } : OdRequest) ∈
      [({ id := "od1", tenant_id := "t", student_id := "s",
          subject_id := "sub", od_type := "normal",
          status := "pending_faculty" } : OdRequest)]) ∧
    ¬ isAdvisee "t" "f" "s"
        [{ tenant_id := "t", batch_id := "b1", student_id := "s",
           faculty_advisor_id := some "g" }] ∧
    0 < odActionAffected (faculty_od_action "od1" "t" "f" "approve" none 0
        [{ id := "od1", tenant_id := "t", student_id := "s",
           subject_id := "sub", od_type := "normal",
           status := "pending_faculty" }]) ∧
    0 < odActionAffected (faculty_od_action "od1" "t" "f" "reject"
        (some "busy") 0
        [{ id := "od1", tenant_id := "t", student_id := "s",
           subject_id := "sub", od_type := "normal",
           status := "pending_faculty" }]) :=
  ⟨by decide, by decide,
   c1_no_advisee_check "od1" "t" "f" "approve" none 0
     [{ id := "od1", tenant_id := "t", student_id := "s",
        subject_id := "sub", od_type := "normal",
        status := "pending_faculty" }]
     [{ tenant_id := "t", batch_id := "b1", student_id := "s",
        faculty_advisor_id := some "g" }]
     { id := "od1", tenant_id := "t", student_id := "s",
       subject_id := "sub", od_type := "normal",
       status := "pending_faculty" }
     (Or.inl rfl) (by decide) rfl rfl rfl (by decide),
   c1_no_advisee_check "od1" "t" "f" "reject" (some "busy") 0
     [{ id := "od1", tenant_id := "t", student_id := "s",
        subject_id := "sub", od_type := "normal",
        status := "pending_faculty" }]
     [{ tenant_id := "t", batch_id := "b1", student_id := "s",
        faculty_advisor_id := some "g" }]
     { id := "od1", tenant_id := "t", student_id := "s",
       subject_id := "sub", od_type := "normal",
       status := "pending_faculty" }
     (Or.inr rfl) (by decide) rfl rfl rfl (by decide)⟩

/-- C2 counterexample: a locked marks row is overwritten by a later submit
for the same (tenant, subject, student) key — its marks change and its
status drops back to "submitted". -/
theorem c2_counterexample :
    ((submit_marks "t" "f2" "sub"
        [{ student_id := "stu", marks := 90, max_marks := 100 }]
        [{ tenant_id := "t", subject_id := "sub", student_id := "stu",
           marks := 50, max_marks := 100, status := "locked",
           locked_by := some "adm", locked_at := some 1 }]).1.map
      (fun m => (m.status, m.marks))) = [("submitted", 90)] ∧
    (submit_marks "t" "f2" "sub"
        [{ student_id := "stu", marks := 90, max_marks := 100 }]
        [{ tenant_id := "t", subject_id := "sub", student_id := "stu",
           marks := 50, max_marks := 100, status := "locked",
           locked_by := some "adm", locked_at := some 1 }]).1 ≠
      [{ tenant_id := "t", subject_id := "sub", student_id := "stu",
         marks := 50, max_marks := 100, status := "locked",
         locked_by := some "adm", locked_at := some 1 }] := by
  constructor <;> decide

/-- C2 amended: approve, reject and lock never change a locked row (their
conditional updates filter on status "submitted" / "approved"), but submit
is an unconditional upsert on the (tenant, subject, student) key: a later
submit for a locked row's key overwrites its marks and resets its status to
"submitted". -/
theorem c2_locked_row_behavior (tenant subject actor actor2 : String)
    (action : String) (now : Nat) (table : List InternalMark) (i : Nat)
    (m : InternalMark) (hm : table[i]? = some m)
    (hlock : m.status = "locked") :
    (∀ t' aff, approve_marks action tenant subject actor now table =
        .ok (t', aff) → t'[i]? = some m) ∧
    (lock_marks tenant subject actor now table).1[i]? = some m ∧
    (∀ e : MarkEntry, m.tenant_id = tenant → m.subject_id = subject →
        e.student_id = m.student_id →
        ((upsertMark tenant subject actor2 e table)[i]?).map
            (fun x => x.status) =
          some "submitted") := by
  have hmm : marksMatch tenant subject m = false := by
    simp [marksMatch, hlock]
  have hlm : lockMatch tenant subject m = false := by
    simp [lockMatch, hlock]
  refine ⟨?_, ?_, ?_⟩
  · intro t' aff h
    by_cases h1 : action = "approve"
    · subst h1
      simp only [approve_marks, beq_self_eq_true, if_true, Except.ok.injEq,
        Prod.mk.injEq] at h
      rw [← h.1, List.getElem?_map, hm]
      simp [hmm]
    · by_cases h2 : action = "reject"
      · subst h2
        simp only [approve_marks, beq_iff_eq, beq_self_eq_true, if_true,
          Except.ok.injEq, Prod.mk.injEq, h1, if_false,
          reduceIte] at h
        rw [← h.1, List.getElem?_map, hm]
        simp [hmm]
      · simp [approve_marks, h1, h2] at h
  · simp only [lock_marks, List.getElem?_map, hm]
    simp [hlm]
  · intro e h1 h2 h3
    have hmem : m ∈ table := List.getElem?_mem hm
    have hany : table.any (fun x => x.tenant_id == tenant &&
        x.subject_id == subject && x.student_id == e.student_id) = true :=
      List.any_eq_true.mpr ⟨m, hmem, by simp [h1, h2, h3]⟩
    simp only [upsertMark, hany, if_true, List.getElem?_map, hm]
    simp [h1, h2, h3]

/-- C2 witness for the amended claim: on a concrete locked row, lock leaves
it in place. -/
theorem c2_locked_row_behavior_witness :
    (([({ tenant_id := "t", subject_id := "sub", student_id := "stu",
          marks := 50, max_marks := 100, status := "locked" } :
         InternalMark)] : List InternalMark)[0]? =
      some { tenant_id := "t", subject_id := "sub", student_id := "stu",
             marks := 50, max_marks := 100, status := "locked" }) ∧
    (lock_marks "t" "sub" "adm" 2
        [{ tenant_id := "t", subject_id := "sub", student_id := "stu",
           marks := 50, max_marks := 100, status := "locked" }]).1[0]? =
      some { tenant_id := "t", subject_id := "sub", student_id := "stu",
             marks := 50, max_marks := 100, status := "locked" } :=
  ⟨by decide,
   (c2_locked_row_behavior "t" "sub" "adm" "f2" "approve" 2
      [{ tenant_id := "t", subject_id := "sub", student_id := "stu",
         marks := 50, max_marks := 100, status := "locked" }] 0
      { tenant_id := "t", subject_id := "sub", student_id := "stu",
        marks := 50, max_marks := 100, status := "locked" }
      (by decide) rfl).2.1⟩

/-- Deleted-or-kept: the force-regenerate deletion only ever removes slots,
it never adds any. -/
theorem applyForceDelete_sub (tenant batch_id : String) (force : Bool)
    (db : DB) :
    ∀ s ∈ (applyForceDelete tenant batch_id force db).timetable_slots,
      s ∈ db.timetable_slots := by
  intro s hs
  simp only [applyForceDelete] at hs
  split at hs
  · exact (List.mem_filter.mp hs).1
  · exact hs

/-- C3 counterexample: with `force_regenerate` set, a run that fails with
the subjects not-found error has already deleted the batch's existing slot
— the not-found failure does not abort before every mutation. -/
theorem c3_counterexample :
    (generate_timetable "t" "b1" true dbNoSubjects).2 =
      Except.error "No subjects found for this batch\x27s semester" ∧
    (generate_timetable "t" "b1" true dbNoSubjects).1.timetable_slots =
      [] ∧
    dbNoSubjects.timetable_slots ≠ [] := by
  refine ⟨rfl, rfl, ?_⟩
  intro h
  simp [dbNoSubjects] at h

/-- C3 amended: an absent batch aborts before any mutation, and a
not-found failure never creates a slot; but when `force_regenerate` is set
the batch's existing slots are deleted before the subjects and
period-template checks, so those failures can follow the deletion.  Without
`force_regenerate` every error leaves the database unchanged. -/
theorem c3_notfound_abort (tenant batch_id : String) (force : Bool)
    (db db' : DB) (e : String)
    (h : generate_timetable tenant batch_id force db = (db', .error e)) :
    (force = false → db' = db) ∧
    (∀ s ∈ db'.timetable_slots, s ∈ db.timetable_slots) ∧
    (db.batches.find?
        (fun b => b.id == batch_id && b.tenant_id == tenant) = none →
      db' = db) := by
  unfold generate_timetable at h
  cases hfind : db.batches.find?
      (fun b => b.id == batch_id && b.tenant_id == tenant) with
  | none =>
      rw [hfind] at h
      simp only [Prod.mk.injEq] at h
      obtain ⟨rfl, -⟩ := h
      exact ⟨fun _ => rfl, fun s hs => hs, fun _ => rfl⟩
  | some batch =>
      rw [hfind] at h
      simp only [] at h
      split at h
      · simp only [Prod.mk.injEq] at h
        obtain ⟨rfl, -⟩ := h
        refine ⟨?_, applyForceDelete_sub tenant batch_id force db, ?_⟩
        · intro hf
          simp [applyForceDelete, hf]
        · intro hnone
          exact Option.noConfusion hnone
      · split at h
        · simp only [Prod.mk.injEq] at h
          obtain ⟨rfl, -⟩ := h
          refine ⟨?_, applyForceDelete_sub tenant batch_id force db, ?_⟩
          · intro hf
            simp [applyForceDelete, hf]
          · intro hnone
            exact Option.noConfusion hnone
        · simp only [Prod.mk.injEq] at h
          exact absurd h.2 (by simp)

set_option maxRecDepth 4000 in
/-- C3 witness for the amended claim: the concrete failing run from the
counterexample creates no slot. -/
theorem c3_notfound_abort_witness :
    generate_timetable "t" "b1" true dbNoSubjects =
      ({ batches := [{ id := "b1", tenant_id := "t", semester := some 1 }],
         timetable_slots := [] },
       .error "No subjects found for this batch\x27s semester") ∧
    ∀ s ∈ ({ batches := [{ id := "b1", tenant_id := "t",
                           semester := some 1 }],
             timetable_slots := [] } : DB).timetable_slots,
      s ∈ dbNoSubjects.timetable_slots :=
  ⟨rfl,
   (c3_notfound_abort "t" "b1" true dbNoSubjects
      { batches := [{ id := "b1", tenant_id := "t", semester := some 1 }],
        timetable_slots := [] }
      "No subjects found for this batch\x27s semester" rfl).2.1⟩

set_option maxRecDepth 100000 in
/-- C9: the 4-hours/week assignment with 6 periods × 6 days free yields
exactly 4 created slots, all on day 1 in periods 1–4 (day-then-period scan
order). -/
theorem c9_scenario_four_slots_day_one :
    ((generate_timetable "t" "b1" false dbScenario).2.toOption.map
      (fun r => (r.allocated_slots,
        r.slots.map (fun s => (s.day_of_week, s.period_number))))) =
      some (4, [(1, 1), (1, 2), (1, 3), (1, 4)]) := rfl

set_option maxRecDepth 100000 in
/-- C10: subject selection for a generation run filters by tenant and
semester only — a subject of a different program is selected, its
assignments are picked up, and a missing hours_per_week defaults to 4; on
the concrete cross-program fixture the run schedules 4 slots of the
other-program subject into the batch. -/
theorem c10_no_program_filter (tenant : String) (sem : Nat) (db : DB)
    (sub : Subject) (asgn : FacultyAssignment)
    (hsub : sub ∈ db.subjects) (ht : sub.tenant_id = tenant)
    (hsem : sub.semester = sem)
    (ha : asgn ∈ db.assignments) (hat : asgn.tenant_id = tenant)
    (hasub : asgn.subject_id = sub.id) :
    sub ∈ subjectsFor tenant sem db ∧
    asgn ∈ assignmentsFor tenant
      ((subjectsFor tenant sem db).map (fun s => s.id)) db ∧
    (asgn.hours_per_week = none → hoursNeeded asgn = 4) ∧
    ((generate_timetable "t" "b1" false dbCrossProgram).2.toOption.map
      (fun r => r.slots.map
        (fun s => (s.subject_id, s.batch_id, s.day_of_week,
          s.period_number)))) =
      some [("s2", "b1", 1, 1), ("s2", "b1", 1, 2), ("s2", "b1", 1, 3),
            ("s2", "b1", 1, 4)] := by
  have h1 : sub ∈ subjectsFor tenant sem db :=
    List.mem_filter.mpr ⟨hsub, by simp [ht, hsem]⟩
  refine ⟨h1, ?_, ?_, rfl⟩
  · refine List.mem_filter.mpr ⟨ha, ?_⟩
    have hid : sub.id ∈ (subjectsFor tenant sem db).map (fun s => s.id) :=
      List.mem_map.mpr ⟨sub, h1, rfl⟩
    simp only [hat, hasub, Bool.and_eq_true, beq_self_eq_true, true_and]
    exact List.elem_iff.mpr hid
  · intro hn
    simp [hoursNeeded, hn]

/-- C10 witness: the cross-program fixture itself satisfies the selection
hypotheses. -/
theorem c10_no_program_filter_witness :
    (({ id := "s2", tenant_id := "t", program_id := "P2", semester := 3 } :
        Subject) ∈ dbCrossProgram.subjects) ∧
    (({ tenant_id := "t", faculty_id := "f1", subject_id := "s2" } :
        FacultyAssignment) ∈ dbCrossProgram.assignments) ∧
    ({ tenant_id := "t", faculty_id := "f1", subject_id := "s2" } :
        FacultyAssignment) ∈ assignmentsFor "t"
      ((subjectsFor "t" 3 dbCrossProgram).map (fun s => s.id))
      dbCrossProgram :=
  ⟨by simp [dbCrossProgram], by simp [dbCrossProgram],
   (c10_no_program_filter "t" 3 dbCrossProgram
      { id := "s2", tenant_id := "t", program_id := "P2", semester := 3 }
      { tenant_id := "t", faculty_id := "f1", subject_id := "s2" }
      (by simp [dbCrossProgram]) rfl rfl (by simp [dbCrossProgram])
      rfl rfl).2.1⟩

/-- C4: for one generation run over any assignment list, the slots it
creates together with the pre-existing slots read at run start (which seed
the occupancy index) are pairwise free of faculty, batch and non-null-room
conflicts, and every one of them has its occupancy keys marked in the
final index — each successful placement marks its keys immediately, so
later iterations of the same run see it. -/
theorem c4_run_conflict_free (tenant batch_id : String)
    (assignments : List FacultyAssignment) (periods : List PeriodTemplate)
    (rooms : List Classroom) (existing : List Slot)
    (hcf : conflictFree existing) :
    conflictFree (existing ++
      (greedyAlloc tenant batch_id assignments periods rooms
        (buildOcc existing)).2) ∧
    (∀ s ∈ existing ++
        (greedyAlloc tenant batch_id assignments periods rooms
          (buildOcc existing)).2,
      occCovers (greedyAlloc tenant batch_id assignments periods rooms
        (buildOcc existing)).1 s) := by
  have h0 : runInv existing (buildOcc existing) [] := by
    constructor
    · intro s hs
      rw [List.append_nil] at hs
      exact buildOcc_covers existing s hs
    · rw [List.append_nil]
      exact hcf
  have hfin := greedyAlloc_inv tenant batch_id assignments periods rooms
    (buildOcc existing) existing h0
  exact ⟨hfin.2, hfin.1⟩

/-- C4 witness: a concrete run against one pre-existing booked slot stays
conflict-free. -/
theorem c4_run_conflict_free_witness :
    conflictFree
      [{ tenant_id := "t", batch_id := "b2", subject_id := "s0",
         faculty_id := "f1", classroom_id := some "r1", day_of_week := 1,
         period_number := 1 }] ∧
    conflictFree
      ([({ tenant_id := "t", batch_id := "b2", subject_id := "s0",
           faculty_id := "f1", classroom_id := some "r1", day_of_week := 1,
           period_number := 1 } : Slot)] ++
        (greedyAlloc "t" "b1"
          [{ tenant_id := "t", faculty_id := "f1", subject_id := "s1",
             hours_per_week := some 2 }]
          [{ tenant_id := some "t", period_number := 1 },
           { tenant_id := some "t", period_number := 2 }]
          [{ id := "r1", tenant_id := "t", capacity := 30 }]
          (buildOcc
            [{ tenant_id := "t", batch_id := "b2", subject_id := "s0",
               faculty_id := "f1", classroom_id := some "r1",
               day_of_week := 1, period_number := 1 }])).2) :=
  ⟨by decide,
   (c4_run_conflict_free "t" "b1"
      [{ tenant_id := "t", faculty_id := "f1", subject_id := "s1",
         hours_per_week := some 2 }]
      [{ tenant_id := some "t", period_number := 1 },
       { tenant_id := some "t", period_number := 2 }]
      [{ id := "r1", tenant_id := "t", capacity := 30 }]
      [{ tenant_id := "t", batch_id := "b2", subject_id := "s0",
         faculty_id := "f1", classroom_id := some "r1", day_of_week := 1,
         period_number := 1 }]
      (by decide)).1⟩

end Cloudbackend
